import Mathlib

/-!
Verification development for the StudyMaster AI backend (Node/Express).

The file shallowly embeds the algorithmic core of the repository:

* the SM-2 spaced-repetition scheduler `calculateSpacedRepetition`
  (two byte-identical copies live in the repository; both are embedded,
  one per namespace);
* the request-coalescing layer of `POST /api/generate`
  (`inflightRequests`, `contentCache`, `generateRequestKey`);
* the question-batch pagination handler `GET /api/sessions/:id/next`
  (`questionSessionCache`, the `question_batches` and `study_sessions`
  collections);
* the review route `POST /api/spaced-repetition/review`.

JavaScript numbers are modelled by `ℚ` (the arithmetic performed by the
scheduler is exact on the decimal constants involved), `Math.round` by
Mathlib's `round` (both are `⌊x + 1/2⌋`), and the wall clock is passed
explicitly.
-/

/-- Result record of `calculateSpacedRepetition`: the object literal returned
at the end of the function.  `nextReview` is the millisecond timestamp
`now + interval * 24*60*60*1000`. -/
structure SRResult where
  repetitions : ℚ
  interval : ℚ
  easeFactor : ℚ
  nextReview : ℚ
deriving Repr, DecidableEq

namespace Part001

/-- `calculateSpacedRepetition(quality, repetitions, easeFactor, interval)`
from the main server file.  The source mutates `repetitions` and `interval`
in sequence; the embedding flattens the two assignments into one conditional
each (the `quality < 3` test is duplicated, which is equivalent because the
source assigns both fields inside the same branch).  `Math.round` is
`round`, `Math.max` is `max`, and `Date.now()` is the explicit `now`
argument (placed last to keep the source's parameter order). -/
def calculateSpacedRepetition (quality repetitions easeFactor interval now : ℚ) : SRResult :=
  let repetitions' : ℚ := if quality < 3 then 0 else repetitions + 1
  let interval' : ℚ :=
    if quality < 3 then 1
    else if repetitions = 0 then 1
    else if repetitions = 1 then 6
    else ((round (interval * easeFactor) : ℤ) : ℚ)
  let easeFactor' : ℚ :=
    max 1.3 (easeFactor + (0.1 - (5 - quality) * (0.08 + (5 - quality) * 0.02)))
  { repetitions := repetitions'
    interval := interval'
    easeFactor := easeFactor'
    nextReview := now + interval' * (24 * 60 * 60 * 1000) }

end Part001

namespace Backend

/-- `calculateSpacedRepetition` from `src/backend/server.js`; the source text
of the function is identical to the copy in the main server file, and so is
its embedding. -/
def calculateSpacedRepetition (quality repetitions easeFactor interval now : ℚ) : SRResult :=
  let repetitions' : ℚ := if quality < 3 then 0 else repetitions + 1
  let interval' : ℚ :=
    if quality < 3 then 1
    else if repetitions = 0 then 1
    else if repetitions = 1 then 6
    else ((round (interval * easeFactor) : ℤ) : ℚ)
  let easeFactor' : ℚ :=
    max 1.3 (easeFactor + (0.1 - (5 - quality) * (0.08 + (5 - quality) * 0.02)))
  { repetitions := repetitions'
    interval := interval'
    easeFactor := easeFactor'
    nextReview := now + interval' * (24 * 60 * 60 * 1000) }

end Backend

/-- Folding a list of quality ratings through the scheduler, starting from
the defaults a freshly generated flashcard carries
(`repetitions = 0`, `easeFactor = 2.5`, `interval = 1`). -/
def reviewSeq (qs : List ℚ) : SRResult :=
  qs.foldl
    (fun s q => Part001.calculateSpacedRepetition q s.repetitions s.easeFactor s.interval 0)
    { repetitions := 0, interval := 1, easeFactor := 2.5, nextReview := 0 }

/-- The ease factor produced by a single scheduler step is always at least
1.3: the update is `Math.max(1.3, …)`. -/
theorem sm2_ease_floor_step (q reps ef i now : ℚ) :
    (1.3 : ℚ) ≤ (Part001.calculateSpacedRepetition q reps ef i now).easeFactor := by
  have h : (Part001.calculateSpacedRepetition q reps ef i now).easeFactor
      = max 1.3 (ef + (0.1 - (5 - q) * (0.08 + (5 - q) * 0.02))) := rfl
  rw [h]
  exact le_max_left _ _

/-- Folding reviews preserves the 1.3 floor on the ease factor. -/
theorem reviewSeq_ease_floor_aux (qs : List ℚ) (s : SRResult)
    (h : (1.3 : ℚ) ≤ s.easeFactor) :
    (1.3 : ℚ) ≤ ((qs.foldl
      (fun s q => Part001.calculateSpacedRepetition q s.repetitions s.easeFactor s.interval 0)
      s)).easeFactor := by
  induction qs generalizing s with
  | nil => exact h
  | cons q qs ih =>
    exact ih _ (sm2_ease_floor_step q s.repetitions s.easeFactor s.interval 0)

/-- C3: for every card with `easeFactor ≥ 1.3` and `interval ≥ 1` and every
integer quality in `[0,5]`, the state returned by `calculateSpacedRepetition`
again satisfies `easeFactor ≥ 1.3` and `interval ≥ 1`; and over any sequence
of reviews starting from the defaults (`repetitions = 0`,
`easeFactor = 2.5`, `interval = 1`) the ease factor never drops below 1.3. -/
theorem sm2_invariants_preserved :
    (∀ (q : ℤ) (reps ef i now : ℚ), 0 ≤ q → q ≤ 5 → (1.3 : ℚ) ≤ ef → 1 ≤ i →
        (1.3 : ℚ) ≤ (Part001.calculateSpacedRepetition (q : ℚ) reps ef i now).easeFactor ∧
        (1 : ℚ) ≤ (Part001.calculateSpacedRepetition (q : ℚ) reps ef i now).interval) ∧
    (∀ qs : List ℚ, (1.3 : ℚ) ≤ (reviewSeq qs).easeFactor) := by
  constructor
  · intro q reps ef i now _hq0 _hq5 hef hi
    refine ⟨sm2_ease_floor_step _ _ _ _ _, ?_⟩
    have h : (Part001.calculateSpacedRepetition (q : ℚ) reps ef i now).interval
        = if (q : ℚ) < 3 then 1 else if reps = 0 then 1 else if reps = 1 then 6
          else ((round (i * ef) : ℤ) : ℚ) := rfl
    rw [h]
    split_ifs
    · norm_num
    · norm_num
    · norm_num
    · have hmul : (13 / 10 : ℚ) ≤ i * ef := by nlinarith
      have h1 : (1 : ℤ) ≤ round (i * ef) := by
        rw [round_eq, Int.le_floor]
        push_cast
        linarith
      exact_mod_cast h1
  · intro qs
    exact reviewSeq_ease_floor_aux qs _ (by norm_num)

/-- Witness for C3 at quality 5 on a card at the invariant boundary, and a
two-review sequence. -/
theorem sm2_invariants_preserved_witness :
    ((1.3 : ℚ) ≤ (Part001.calculateSpacedRepetition ((5 : ℤ) : ℚ) 0 1.3 1 0).easeFactor ∧
      (1 : ℚ) ≤ (Part001.calculateSpacedRepetition ((5 : ℤ) : ℚ) 0 1.3 1 0).interval) ∧
    (1.3 : ℚ) ≤ (reviewSeq [0, 5]).easeFactor :=
  ⟨sm2_invariants_preserved.1 5 0 1.3 1 0 (by norm_num) (by norm_num) (by norm_num)
      (by norm_num),
    sm2_invariants_preserved.2 [0, 5]⟩

/-- State of the scenario card after its first quality-5 review. -/
def scenarioAfter1 : SRResult := Part001.calculateSpacedRepetition 5 0 2.5 1 0

/-- State after the second quality-5 review. -/
def scenarioAfter2 : SRResult :=
  Part001.calculateSpacedRepetition 5 scenarioAfter1.repetitions
    scenarioAfter1.easeFactor scenarioAfter1.interval 0

/-- State after a third quality-5 review. -/
def scenarioAfter3 : SRResult :=
  Part001.calculateSpacedRepetition 5 scenarioAfter2.repetitions
    scenarioAfter2.easeFactor scenarioAfter2.interval 0

/-- State after the end-to-end scenario's quality-2 review, applied to the
state whose ease factor is 2.7. -/
def scenarioAfterFail : SRResult :=
  Part001.calculateSpacedRepetition 2 scenarioAfter2.repetitions
    scenarioAfter2.easeFactor scenarioAfter2.interval 0

/-- C4: from a new card `{repetitions 0, easeFactor 2.5, interval 1}`, a
quality-5 review yields `{1, 1, 2.6}`, a second `{2, 6, 2.7}`, a third gives
`interval = round (6 * easeFactor-after-2nd) = 16`, and the quality-2 review
of the end-to-end scenario (applied to the state whose ease factor is 2.7)
yields `{0, 1, max 1.3 (2.7 - 0.32) = 2.38}`. -/
theorem sm2_progression_scenario :
    (scenarioAfter1.repetitions = 1 ∧ scenarioAfter1.interval = 1 ∧
      scenarioAfter1.easeFactor = 2.6) ∧
    (scenarioAfter2.repetitions = 2 ∧ scenarioAfter2.interval = 6 ∧
      scenarioAfter2.easeFactor = 2.7) ∧
    (scenarioAfter3.interval = ((round ((6 : ℚ) * scenarioAfter2.easeFactor) : ℤ) : ℚ) ∧
      scenarioAfter3.interval = 16) ∧
    (scenarioAfterFail.repetitions = 0 ∧ scenarioAfterFail.interval = 1 ∧
      scenarioAfterFail.easeFactor = max 1.3 (2.7 - 0.32) ∧
      scenarioAfterFail.easeFactor = 2.38) := by
  simp only [scenarioAfter1, scenarioAfter2, scenarioAfter3, scenarioAfterFail,
    Part001.calculateSpacedRepetition]
  norm_num [round_eq, max_def]

/-- C5: any review with quality below 3 resets `repetitions` to 0 and
`interval` to 1, whatever the card state. -/
theorem sm2_fail_resets (q reps ef i now : ℚ) (h : q < 3) :
    (Part001.calculateSpacedRepetition q reps ef i now).repetitions = 0 ∧
    (Part001.calculateSpacedRepetition q reps ef i now).interval = 1 :=
  ⟨by simp [Part001.calculateSpacedRepetition, h],
    by simp [Part001.calculateSpacedRepetition, h]⟩

/-- Witness for C5 at quality 2 on an arbitrary advanced card. -/
theorem sm2_fail_resets_witness :
    (Part001.calculateSpacedRepetition 2 7 1.9 42 0).repetitions = 0 ∧
    (Part001.calculateSpacedRepetition 2 7 1.9 42 0).interval = 1 :=
  sm2_fail_resets 2 7 1.9 42 0 (by norm_num)

/-- C10: the copy of `calculateSpacedRepetition` in the main server file and
the copy in `src/backend/server.js` are extensionally equal. -/
theorem sm2_copies_extensionally_equal :
    ∀ q reps ef i now : ℚ,
      Part001.calculateSpacedRepetition q reps ef i now
        = Backend.calculateSpacedRepetition q reps ef i now :=
  fun _ _ _ _ _ => rfl

/-!
## Request coalescing (`POST /api/generate`)

`inflightRequests` and `contentCache` are process-wide `Map`s keyed by the
string produced by `generateRequestKey`.  The handler performs no `await`
between the `inflightRequests.has` check and the `inflightRequests.set`
registration, so under Node's event loop the whole check/serve/register
region runs atomically; `arrive` models that region as a single step.
Promise settlement is modelled by `settleSuccess` / `settleFailure`: the
success path writes the cache entry before the owner's `finally` deletes
the in-flight entry, the failure path rethrows without caching; both are
collapsed into one step since the claims only observe the resulting state.
-/

/-- Insertion of a string into a lexicographically sorted list. -/
def insertSorted (s : String) : List String → List String
  | [] => [s]
  | t :: ts => if s ≤ t then s :: t :: ts else t :: insertSorted s ts

/-- Lexicographic sort, the semantics of `fileIds.sort()` on strings. -/
def sortStrings (l : List String) : List String :=
  l.foldr insertSorted []

/-- `JSON.stringify` of an array of (escape-free) strings. -/
def jsonStringifyStrings (l : List String) : String :=
  "[" ++ String.intercalate "," (l.map (fun s => "\x22" ++ s ++ "\x22")) ++ "]"

/-- `generateRequestKey(userId, fileIds, mode, textLength)`:
`userId + ":" + JSON.stringify(fileIds.sort()) + ":" + mode + ":" + textLength`. -/
def generateRequestKey (userId : String) (fileIds : List String) (mode : String)
    (textLength : ℕ) : String :=
  userId ++ ":" ++ jsonStringifyStrings (sortStrings fileIds) ++ ":" ++ mode ++ ":"
    ++ toString textLength

/-- The 5-minute content-cache TTL, in milliseconds (`300000` in the source). -/
def contentCacheTTLms : ℕ := 300000

/-- The period of the background cache sweep (`600000` in the source). -/
def sweepIntervalMs : ℕ := 600000

/-- State of one generation promise. -/
inductive PromiseStatus
  | pending
  | resolved (data : ℕ)
  | rejected (err : ℕ)
deriving Repr, DecidableEq

/-- One generation promise: its identity, the fingerprint it was created
for, and its state.  Each record corresponds to one execution of the
generation promise body (one `produce` invocation). -/
structure PromiseRec where
  pid : ℕ
  key : String
  status : PromiseStatus
deriving Repr, DecidableEq

/-- A `contentCache` entry: `{ data, timestamp }`. -/
structure CacheEntry where
  data : ℕ
  timestamp : ℕ
deriving Repr, DecidableEq

/-- Shared state of the generate endpoint: the two maps and the promises
created so far.  `nextPid` supplies fresh promise identities. -/
structure GenState where
  inflight : List (String × ℕ)
  cache : List (String × CacheEntry)
  promises : List PromiseRec
  nextPid : ℕ
deriving Repr, DecidableEq

/-- `Map.get` on an association list. -/
def lookupKey {α : Type} (m : List (String × α)) (k : String) : Option α :=
  (m.find? (fun e => e.1 == k)).map (fun e => e.2)

/-- `Map.set` on an association list. -/
def setKey {α : Type} (m : List (String × α)) (k : String) (v : α) :
    List (String × α) :=
  (k, v) :: m.filter (fun e => e.1 != k)

/-- `Map.delete` on an association list. -/
def deleteKey {α : Type} (m : List (String × α)) (k : String) :
    List (String × α) :=
  m.filter (fun e => e.1 != k)

/-- What a request observed when it went through the coalescing region. -/
inductive ArriveOutcome
  | attached (p : ℕ)
  | cachedHit (data : ℕ)
  | owner (p : ℕ)
deriving Repr, DecidableEq

/-- Register a fresh generation promise for `k` and start its body. -/
def startProduce (s : GenState) (k : String) : ArriveOutcome × GenState :=
  let p := s.nextPid
  (ArriveOutcome.owner p,
    { s with
        inflight := setKey s.inflight k p
        promises := { pid := p, key := k, status := PromiseStatus.pending } :: s.promises
        nextPid := p + 1 })

/-- The coalescing region of the generate handler: first the
`inflightRequests.has` check, then the `contentCache` freshness check
(`Date.now() - timestamp < 300000`), else the request becomes the owner of a
new generation promise. -/
def arrive (s : GenState) (k : String) (now : ℕ) : ArriveOutcome × GenState :=
  match lookupKey s.inflight k with
  | some p => (ArriveOutcome.attached p, s)
  | none =>
    match lookupKey s.cache k with
    | some e =>
      if now - e.timestamp < contentCacheTTLms then (ArriveOutcome.cachedHit e.data, s)
      else startProduce s k
    | none => startProduce s k

/-- Successful settlement of promise `p`: the promise body caches
`{ data, timestamp: now }` under its fingerprint and resolves; the owner's
`finally` removes the in-flight entry. -/
def settleSuccess (s : GenState) (p : ℕ) (data : ℕ) (now : ℕ) : GenState :=
  match s.promises.find? (fun r => r.pid == p) with
  | some r =>
    { s with
        promises := s.promises.map (fun q =>
          if q.pid == p then { q with status := PromiseStatus.resolved data } else q)
        cache := setKey s.cache r.key { data := data, timestamp := now }
        inflight := deleteKey s.inflight r.key }
  | none => s

/-- Failed settlement of promise `p`: the promise body rethrows without
touching the cache; the owner's `finally` still removes the in-flight
entry. -/
def settleFailure (s : GenState) (p : ℕ) (err : ℕ) : GenState :=
  match s.promises.find? (fun r => r.pid == p) with
  | some r =>
    { s with
        promises := s.promises.map (fun q =>
          if q.pid == p then { q with status := PromiseStatus.rejected err } else q)
        inflight := deleteKey s.inflight r.key }
  | none => s

/-- A sequence of arrivals for the same fingerprint (their coalescing
regions run in some order; each is atomic). -/
def arriveList (s : GenState) (k : String) (nows : List ℕ) :
    List ArriveOutcome × GenState :=
  match nows with
  | [] => ([], s)
  | t :: ts =>
    let r := arrive s k t
    let rs := arriveList r.2 k ts
    (r.1 :: rs.1, rs.2)

/-- Number of generation-promise bodies (`produce` invocations) started for
fingerprint `k` so far. -/
def producedFor (s : GenState) (k : String) : ℕ :=
  (s.promises.filter (fun r => r.key == k)).length

/-- Status of promise `p` in state `s`. -/
def statusOf (s : GenState) (p : ℕ) : Option PromiseStatus :=
  (s.promises.find? (fun r => r.pid == p)).map (fun r => r.status)

/-- The value a caller with the given outcome ends up responding with: an
attached caller and the owner both await the shared promise; a cache hit is
an immediately available value. -/
def outcomeResult (s : GenState) : ArriveOutcome → Option PromiseStatus
  | ArriveOutcome.attached p => statusOf s p
  | ArriveOutcome.owner p => statusOf s p
  | ArriveOutcome.cachedHit d => some (PromiseStatus.resolved d)

/-- The cache sweep body: delete every entry with
`now - value.timestamp > 300000`. -/
def sweepCache (now : ℕ) (c : List (String × CacheEntry)) :
    List (String × CacheEntry) :=
  c.filter (fun kv => !(contentCacheTTLms < now - kv.2.timestamp))

theorem lookupKey_setKey {α : Type} (m : List (String × α)) (k : String) (v : α) :
    lookupKey (setKey m k v) k = some v := by
  simp [lookupKey, setKey]

/-- While an in-flight entry for `k` exists, every further arrival for `k`
attaches to it and the state does not change. -/
theorem arriveList_attached (s : GenState) (k : String) (p : ℕ) (ts : List ℕ)
    (h : lookupKey s.inflight k = some p) :
    arriveList s k ts = (ts.map (fun _ => ArriveOutcome.attached p), s) := by
  induction ts with
  | nil => rfl
  | cons t ts ih => simp [arriveList, arrive, h, ih]

/-- C2: with no in-flight entry and no cache entry for fingerprint `k`
(`generateRequestKey` of owner, sorted file ids, mode, text length), a batch
of concurrent arrivals for `k` starts exactly one generation-promise body:
the first arrival becomes its owner, every other arrival attaches to the
same promise, and whichever way that promise settles, every one of the
callers receives that same result (the same data, or the same error). -/
theorem generate_request_coalesces (s : GenState) (k : String) (t : ℕ) (ts : List ℕ)
    (hinf : lookupKey s.inflight k = none) (hc : lookupKey s.cache k = none) :
    producedFor (arriveList s k (t :: ts)).2 k = producedFor s k + 1 ∧
    (arriveList s k (t :: ts)).1
      = ArriveOutcome.owner s.nextPid
          :: ts.map (fun _ => ArriveOutcome.attached s.nextPid) ∧
    (∀ d t2 o, o ∈ (arriveList s k (t :: ts)).1 →
      outcomeResult (settleSuccess (arriveList s k (t :: ts)).2 s.nextPid d t2) o
        = some (PromiseStatus.resolved d)) ∧
    (∀ e o, o ∈ (arriveList s k (t :: ts)).1 →
      outcomeResult (settleFailure (arriveList s k (t :: ts)).2 s.nextPid e) o
        = some (PromiseStatus.rejected e)) := by
  have harr : arrive s k t = startProduce s k := by
    simp [arrive, hinf, hc]
  have hlook : lookupKey (startProduce s k).2.inflight k = some s.nextPid :=
    lookupKey_setKey _ _ _
  have hlist : arriveList s k (t :: ts)
      = (ArriveOutcome.owner s.nextPid
          :: ts.map (fun _ => ArriveOutcome.attached s.nextPid), (startProduce s k).2) := by
    have h1 : arriveList s k (t :: ts)
        = ((arrive s k t).1 :: (arriveList (arrive s k t).2 k ts).1,
            (arriveList (arrive s k t).2 k ts).2) := rfl
    rw [h1, harr, arriveList_attached _ _ _ _ hlook]
    rfl
  rw [hlist]
  refine ⟨?_, rfl, ?_, ?_⟩
  · simp [producedFor, startProduce]
  · intro d t2 o ho
    have hres : outcomeResult (settleSuccess (startProduce s k).2 s.nextPid d t2)
        (ArriveOutcome.attached s.nextPid) = some (PromiseStatus.resolved d) := by
      simp [settleSuccess, startProduce, outcomeResult, statusOf]
    rcases List.mem_cons.mp ho with rfl | hmem
    · exact hres
    · obtain ⟨_, _, rfl⟩ := List.mem_map.mp hmem
      exact hres
  · intro e o ho
    have hres : outcomeResult (settleFailure (startProduce s k).2 s.nextPid e)
        (ArriveOutcome.attached s.nextPid) = some (PromiseStatus.rejected e) := by
      simp [settleFailure, startProduce, outcomeResult, statusOf]
    rcases List.mem_cons.mp ho with rfl | hmem
    · exact hres
    · obtain ⟨_, _, rfl⟩ := List.mem_map.mp hmem
      exact hres

/-- Witness for C2: two concurrent requests on an empty coordinator with the
fingerprint of user `user1`, files `f2`/`f1`, mode `summary`, length 42. -/
theorem generate_request_coalesces_witness :
    producedFor (arriveList (GenState.mk [] [] [] 0)
        (generateRequestKey "user1" ["f2", "f1"] "summary" 42) [0, 1]).2
        (generateRequestKey "user1" ["f2", "f1"] "summary" 42)
      = producedFor (GenState.mk [] [] [] 0)
          (generateRequestKey "user1" ["f2", "f1"] "summary" 42) + 1 ∧
    (arriveList (GenState.mk [] [] [] 0)
        (generateRequestKey "user1" ["f2", "f1"] "summary" 42) [0, 1]).1
      = [ArriveOutcome.owner 0, ArriveOutcome.attached 0] ∧
    outcomeResult (settleSuccess (arriveList (GenState.mk [] [] [] 0)
          (generateRequestKey "user1" ["f2", "f1"] "summary" 42) [0, 1]).2 0 9 7)
        (ArriveOutcome.owner 0) = some (PromiseStatus.resolved 9) ∧
    outcomeResult (settleFailure (arriveList (GenState.mk [] [] [] 0)
          (generateRequestKey "user1" ["f2", "f1"] "summary" 42) [0, 1]).2 0 4)
        (ArriveOutcome.attached 0) = some (PromiseStatus.rejected 4) := by
  have h := generate_request_coalesces (GenState.mk [] [] [] 0)
    (generateRequestKey "user1" ["f2", "f1"] "summary" 42) 0 [1] rfl rfl
  refine ⟨h.1, h.2.1, ?_, ?_⟩
  · exact h.2.2.1 9 7 _ (by rw [h.2.1]; exact List.mem_cons_self _ _)
  · exact h.2.2.2 4 _ (by rw [h.2.1]; simp)

theorem lookupKey_deleteKey {α : Type} (m : List (String × α)) (k : String) :
    lookupKey (deleteKey m k) k = none := by
  have h : List.find? (fun e => e.1 == k) (m.filter (fun e => e.1 != k)) = none := by
    rw [List.find?_eq_none]
    intro x hx
    have hmem := (List.mem_filter.mp hx).2
    simpa using hmem
  simp [lookupKey, deleteKey, h]

theorem producedFor_startProduce (s : GenState) (k : String) :
    producedFor (startProduce s k).2 k = producedFor s k + 1 := by
  simp [producedFor, startProduce]

/-- `find?` for a pid commutes with the settle-time map when the update
keeps the pid. -/
theorem find?_map_update (l : List PromiseRec) (p : ℕ) (st : PromiseStatus) :
    (l.map (fun q => if q.pid == p then { q with status := st } else q)).find?
        (fun r => r.pid == p)
      = (l.find? (fun r => r.pid == p)).map (fun r => { r with status := st }) := by
  induction l with
  | nil => rfl
  | cons q l ih =>
    by_cases h : q.pid = p
    · have hif : (if (q.pid == p) = true then { q with status := st } else q)
          = { q with status := st } := by simp [h]
      rw [List.map_cons, hif, List.find?_cons_of_pos _ (by simp [h]),
        List.find?_cons_of_pos _ (by simp [h])]
      rfl
    · have hif : (if (q.pid == p) = true then { q with status := st } else q) = q := by
        simp [h]
      rw [List.map_cons, hif, List.find?_cons_of_neg _ (by simp [h]),
        List.find?_cons_of_neg _ (by simp [h])]
      exact ih

/-- C7: when a generation promise for fingerprint `k` fails, the in-flight
registry entry is removed (as it also is on the success path), the rejection
is what every coalesced caller — owner or attached — receives, the failed
result is not written to the content cache, and a retry after the failure
starts a fresh generation-promise body. -/
theorem generate_failure_cleanup (s : GenState) (k : String) (p err : ℕ)
    (hp : s.promises.find? (fun r => r.pid == p)
      = some { pid := p, key := k, status := PromiseStatus.pending }) :
    lookupKey (settleFailure s p err).inflight k = none ∧
    (∀ d t2, lookupKey (settleSuccess s p d t2).inflight k = none) ∧
    outcomeResult (settleFailure s p err) (ArriveOutcome.attached p)
      = some (PromiseStatus.rejected err) ∧
    outcomeResult (settleFailure s p err) (ArriveOutcome.owner p)
      = some (PromiseStatus.rejected err) ∧
    (settleFailure s p err).cache = s.cache ∧
    (∀ t2, lookupKey s.cache k = none →
      (arrive (settleFailure s p err) k t2).1
        = ArriveOutcome.owner (settleFailure s p err).nextPid ∧
      producedFor (arrive (settleFailure s p err) k t2).2 k
        = producedFor (settleFailure s p err) k + 1) := by
  have hfail : settleFailure s p err
      = { s with
            promises := s.promises.map (fun q =>
              if q.pid == p then { q with status := PromiseStatus.rejected err } else q)
            inflight := deleteKey s.inflight k } := by
    simp [settleFailure, hp]
  have hstatus : statusOf (settleFailure s p err) p
      = some (PromiseStatus.rejected err) := by
    rw [hfail]
    simp only [statusOf, find?_map_update, hp]
    rfl
  refine ⟨?_, ?_, hstatus, hstatus, by rw [hfail], ?_⟩
  · rw [hfail]; exact lookupKey_deleteKey _ _
  · intro d t2
    have hsucc : settleSuccess s p d t2
        = { s with
              promises := s.promises.map (fun q =>
                if q.pid == p then { q with status := PromiseStatus.resolved d } else q)
              cache := setKey s.cache k { data := d, timestamp := t2 }
              inflight := deleteKey s.inflight k } := by
      simp [settleSuccess, hp]
    rw [hsucc]; exact lookupKey_deleteKey _ _
  · intro t2 hcache
    have hinf2 : lookupKey (settleFailure s p err).inflight k = none := by
      rw [hfail]; exact lookupKey_deleteKey _ _
    have hcache2 : lookupKey (settleFailure s p err).cache k = none := by
      rw [hfail]; exact hcache
    have harr : arrive (settleFailure s p err) k t2
        = startProduce (settleFailure s p err) k := by
      simp [arrive, hinf2, hcache2]
    rw [harr]
    exact ⟨rfl, producedFor_startProduce _ _⟩

/-- Witness for C7: a single pending promise for key `k`, failing with
error 5; retry at time 7. -/
theorem generate_failure_cleanup_witness :
    lookupKey (settleFailure (GenState.mk [("k", 0)] []
        [PromiseRec.mk 0 "k" PromiseStatus.pending] 1) 0 5).inflight "k" = none ∧
    lookupKey (settleSuccess (GenState.mk [("k", 0)] []
        [PromiseRec.mk 0 "k" PromiseStatus.pending] 1) 0 3 11).inflight "k" = none ∧
    outcomeResult (settleFailure (GenState.mk [("k", 0)] []
        [PromiseRec.mk 0 "k" PromiseStatus.pending] 1) 0 5)
        (ArriveOutcome.attached 0) = some (PromiseStatus.rejected 5) ∧
    (settleFailure (GenState.mk [("k", 0)] []
        [PromiseRec.mk 0 "k" PromiseStatus.pending] 1) 0 5).cache = [] ∧
    (arrive (settleFailure (GenState.mk [("k", 0)] []
        [PromiseRec.mk 0 "k" PromiseStatus.pending] 1) 0 5) "k" 7).1
      = ArriveOutcome.owner 1 := by
  have h := generate_failure_cleanup (GenState.mk [("k", 0)] []
    [PromiseRec.mk 0 "k" PromiseStatus.pending] 1) "k" 0 5 rfl
  exact ⟨h.1, h.2.1 3 11, h.2.2.1, h.2.2.2.2.1, (h.2.2.2.2.2 7 rfl).1⟩

/-- C8: with no in-flight entry, a request that finds a cache entry younger
than the 5-minute TTL is served from the cache without starting a new
generation, a request that finds the entry at or beyond the TTL starts a
fresh generation-promise body, and the background sweep keeps exactly the
entries that are at most 5 minutes old (the sweep runs every 10 minutes). -/
theorem content_cache_ttl (s : GenState) (k : String) (e : CacheEntry) (now : ℕ)
    (hinf : lookupKey s.inflight k = none) (hc : lookupKey s.cache k = some e) :
    (now - e.timestamp < contentCacheTTLms →
      arrive s k now = (ArriveOutcome.cachedHit e.data, s)) ∧
    (contentCacheTTLms ≤ now - e.timestamp →
      (arrive s k now).1 = ArriveOutcome.owner s.nextPid ∧
      producedFor (arrive s k now).2 k = producedFor s k + 1) ∧
    (∀ (c : List (String × CacheEntry)) (kv : String × CacheEntry),
      kv ∈ sweepCache now c ↔ kv ∈ c ∧ now - kv.2.timestamp ≤ contentCacheTTLms) ∧
    contentCacheTTLms = 5 * 60 * 1000 ∧ sweepIntervalMs = 10 * 60 * 1000 := by
  refine ⟨?_, ?_, ?_, rfl, rfl⟩
  · intro h
    simp [arrive, hinf, hc, h]
  · intro h
    have harr : arrive s k now = startProduce s k := by
      simp [arrive, hinf, hc, Nat.not_lt.mpr h]
    rw [harr]
    exact ⟨rfl, producedFor_startProduce _ _⟩
  · intro c kv
    simp [sweepCache, List.mem_filter, Nat.not_lt]

/-- Witness for C8: entry cached at time 100 with payload 9; a request at
time 200 is a cache hit, a request at time 300100 starts a new generation;
the sweep at time 200 keeps the entry. -/
theorem content_cache_ttl_witness :
    arrive (GenState.mk [] [("k", CacheEntry.mk 9 100)] [] 0) "k" 200
      = (ArriveOutcome.cachedHit 9, GenState.mk [] [("k", CacheEntry.mk 9 100)] [] 0) ∧
    (arrive (GenState.mk [] [("k", CacheEntry.mk 9 100)] [] 0) "k" 300100).1
      = ArriveOutcome.owner 0 ∧
    (("k", CacheEntry.mk 9 100) ∈ sweepCache 200 [("k", CacheEntry.mk 9 100)] ↔
      ("k", CacheEntry.mk 9 100) ∈ [("k", CacheEntry.mk 9 100)] ∧
        200 - (CacheEntry.mk 9 100).timestamp ≤ contentCacheTTLms) := by
  have h := content_cache_ttl (GenState.mk [] [("k", CacheEntry.mk 9 100)] [] 0)
    "k" (CacheEntry.mk 9 100) 200 rfl rfl
  have h2 := content_cache_ttl (GenState.mk [] [("k", CacheEntry.mk 9 100)] [] 0)
    "k" (CacheEntry.mk 9 100) 300100 rfl rfl
  exact ⟨h.1 (by decide), (h2.2.1 (by decide)).1,
    h.2.2.1 [("k", CacheEntry.mk 9 100)] ("k", CacheEntry.mk 9 100)⟩

/-!
## Question-batch sessions (`GET /api/sessions/:id/next`)

Per-session state: the `study_sessions` record, the session's documents in
`question_batches`, and the `questionSessionCache` entry.  The handler tries
the in-memory cache first; if the cache holds no unseen question it queries
the database for a batch that still has one; if none exists it synchronously
generates a new batch (modelled by the injected `gen` argument), stores it,
updates the session record and the cache, and serves from the new batch.
`limit` is `parseInt(req.query.limit) || 5`, and every `slice(0, limit)` is
JavaScript slice semantics (a negative end counts from the end of the
array).  In the new-batch path the source mutates the question objects to
`shown` only after `insertOne` has stored them, so the database copy of the
new batch stays `unseen` while the cache copy (which shares the objects)
records the delivery; in the cache path the `shown` flags are likewise never
written back to `question_batches`.
-/

/-- Delivery status of a session question (`'unseen'` / `'shown'`). -/
inductive QStatus
  | unseen
  | shown
deriving Repr, DecidableEq

/-- One question of a batch: its `_id`, its text, and its status. -/
structure SessionQuestion where
  qid : ℕ
  question : String
  status : QStatus
deriving Repr, DecidableEq

/-- One `question_batches` document of the session. -/
structure QuestionBatch where
  batchNumber : ℕ
  questions : List SessionQuestion
deriving Repr, DecidableEq

/-- The fields of the `study_sessions` record the handler reads/writes. -/
structure StudySession where
  contextSummary : String
  topicKey : String
  currentBatch : ℕ
  totalGenerated : ℕ
  previousTopics : List String
deriving Repr, DecidableEq

/-- A `questionSessionCache` entry. -/
structure SessionCacheEntry where
  contextSummary : String
  topicKey : String
  questions : List SessionQuestion
deriving Repr, DecidableEq

/-- All server-side state of one session. -/
structure SessionState where
  session : StudySession
  batches : List QuestionBatch
  cache : Option SessionCacheEntry
deriving Repr, DecidableEq

/-- `parseInt(req.query.limit) || 5`: `none` stands for an absent or
non-numeric parameter (`parseInt` gave `NaN`); `0` and `NaN` are falsy and
replaced by 5, every other number — negative included — is kept. -/
def jsLimit (limitParam : Option ℤ) : ℤ :=
  match limitParam with
  | none => 5
  | some n => if n = 0 then 5 else n

/-- `xs.slice(0, stop)`: a non-negative `stop` takes that many elements, a
negative `stop` counts back from the end of the array. -/
def jsSlice {α : Type} (xs : List α) (stop : ℤ) : List α :=
  if 0 ≤ stop then xs.take stop.toNat else xs.take (xs.length - (-stop).toNat)

/-- Set the status of the questions with the given ids to `shown`
(the source does it by mutating the array elements in place). -/
def markShown (qs : List SessionQuestion) (ids : List ℕ) : List SessionQuestion :=
  qs.map (fun q => if ids.contains q.qid then { q with status := QStatus.shown } else q)

/-- The JSON responses of the handler (`questions` reduced to their ids). -/
inductive NextResponse
  | ok (questions : List ℕ) (remaining : ℤ) (newBatchGenerated : Bool)
      (needsNewBatch : Bool)
  | generationFailed (err : String)
deriving Repr, DecidableEq

/-- The ids an ok response delivers (empty for an error response). -/
def NextResponse.delivered : NextResponse → List ℕ
  | NextResponse.ok qs _ _ _ => qs
  | NextResponse.generationFailed _ => []

/-- The `GET /api/sessions/:id/next` handler.  `gen` is the
`generateQuestionBatch` collaborator: `Except.error` when the upstream
generation throws (after its retries), `Except.ok` with the `(id, text)`
pairs of the produced questions otherwise. -/
def nextQuestions (st : SessionState) (limitParam : Option ℤ)
    (gen : Except String (List (ℕ × String))) : NextResponse × SessionState :=
  let limit := jsLimit limitParam
  -- cache path
  let cacheResult : Option (NextResponse × SessionState) :=
    match st.cache with
    | none => none
    | some c =>
      let unseen := jsSlice (c.questions.filter (fun q => q.status == QStatus.unseen)) limit
      if unseen.isEmpty then none
      else
        let newCacheQs := markShown c.questions (unseen.map (fun q => q.qid))
        -- `remaining` is computed after the in-place mutation, as in the source
        let remaining : ℤ :=
          (newCacheQs.filter (fun q => q.status == QStatus.unseen)).length
            - (unseen.length : ℤ)
        some (NextResponse.ok (unseen.map (fun q => q.qid)) remaining false false,
          { st with cache := some { c with questions := newCacheQs } })
  match cacheResult with
  | some r => r
  | none =>
    -- database path: first batch that still has an unseen question
    match st.batches.find? (fun b => b.questions.any (fun q => q.status == QStatus.unseen)) with
    | none =>
      -- new-batch generation path
      match gen with
      | Except.error e => (NextResponse.generationFailed e, st)
      | Except.ok qs =>
        let newQs := qs.map (fun q =>
          { qid := q.1, question := q.2, status := QStatus.unseen : SessionQuestion })
        let newBatch : QuestionBatch :=
          { batchNumber := st.session.currentBatch + 1, questions := newQs }
        let session :=
          { st.session with
              currentBatch := st.session.currentBatch + 1
              totalGenerated := st.session.totalGenerated + 20
              previousTopics := st.session.previousTopics
                ++ (qs.take 5).map (fun q => q.2.take 30) }
        let returnQs := jsSlice newQs limit
        -- the returned objects are mutated to shown after the insert: the
        -- cache copy sees it, the stored batch does not
        let cacheQs := markShown newQs (returnQs.map (fun q => q.qid))
        (NextResponse.ok (returnQs.map (fun q => q.qid)) (20 - limit) true false,
          { session := session
            batches := st.batches ++ [newBatch]
            cache := some { contextSummary := st.session.contextSummary,
                            topicKey := st.session.topicKey,
                            questions := cacheQs } })
    | some b =>
      let unseen := jsSlice (b.questions.filter (fun q => q.status == QStatus.unseen)) limit
      if unseen.isEmpty then
        (NextResponse.ok [] 0 false true, st)
      else
        let remaining : ℤ :=
          (b.questions.filter (fun q => q.status == QStatus.unseen)).length
            - (unseen.length : ℤ)
        (NextResponse.ok (unseen.map (fun q => q.qid)) remaining false false,
          { st with
              batches := st.batches.map (fun bb =>
                if bb.batchNumber == b.batchNumber then
                  { bb with questions := markShown bb.questions (unseen.map (fun q => q.qid)) }
                else bb) })

theorem jsSlice_nil {α : Type} (stop : ℤ) : jsSlice ([] : List α) stop = [] := by
  unfold jsSlice
  split <;> simp

/-- The post-creation state of a session whose first batch holds the single
question `0`: the batch is stored in `question_batches` with the question
`unseen`, and the cache holds the same questions. -/
def c1InitialState : SessionState :=
  { session := { contextSummary := "", topicKey := "", currentBatch := 1,
                 totalGenerated := 20, previousTopics := [] },
    batches := [{ batchNumber := 1,
                  questions := [{ qid := 0, question := "q0", status := QStatus.unseen }] }],
    cache := some { contextSummary := "", topicKey := "",
                    questions := [{ qid := 0, question := "q0", status := QStatus.unseen }] } }

/-- C1 fails on the code: the first `next` call delivers question `0` from
the cache (marking it shown only there), the second call falls through to
the database — where the question is still `unseen`, because the cache path
never writes the status back — and delivers question `0` again.  The id
sets of the two calls are not disjoint. -/
theorem nextQuestions_redelivers :
    (nextQuestions c1InitialState none (Except.ok [])).1.delivered = [0] ∧
    (nextQuestions (nextQuestions c1InitialState none (Except.ok [])).2 none
        (Except.ok [])).1.delivered = [0] := by
  decide

/-- C9: when every question of the session is already shown (the session is
exhausted) and the generator fails, the call returns the failure and the
whole session state — cache, stored batches, and the `study_sessions`
record with its `currentBatch`, `totalGenerated` and `previousTopics` — is
left unchanged; no partial batch is recorded, so a retry attempts
generation afresh. -/
theorem nextQuestions_generator_failure (st : SessionState) (limitParam : Option ℤ)
    (e : String)
    (hcache : ∀ c, st.cache = some c →
      c.questions.filter (fun q => q.status == QStatus.unseen) = [])
    (hdb : ∀ b ∈ st.batches,
      b.questions.any (fun q => q.status == QStatus.unseen) = false) :
    nextQuestions st limitParam (Except.error e)
      = (NextResponse.generationFailed e, st) := by
  have hfind : st.batches.find?
      (fun b => b.questions.any (fun q => q.status == QStatus.unseen)) = none := by
    rw [List.find?_eq_none]
    intro b hb
    simp [hdb b hb]
  rcases hc : st.cache with _ | c
  · simp [nextQuestions, hc, hfind]
  · have hfilter := hcache c hc
    simp [nextQuestions, hc, hfilter, jsSlice_nil, hfind]

/-- Witness for C9: an exhausted one-question session, generator failing
with message `boom`. -/
theorem nextQuestions_generator_failure_witness :
    nextQuestions
        { session := { contextSummary := "", topicKey := "", currentBatch := 1,
                       totalGenerated := 20, previousTopics := [] },
          batches := [{ batchNumber := 1,
                        questions := [{ qid := 0, question := "q0",
                                        status := QStatus.shown }] }],
          cache := none }
        (some 5) (Except.error "boom")
      = (NextResponse.generationFailed "boom",
          { session := { contextSummary := "", topicKey := "", currentBatch := 1,
                         totalGenerated := 20, previousTopics := [] },
            batches := [{ batchNumber := 1,
                          questions := [{ qid := 0, question := "q0",
                                          status := QStatus.shown }] }],
            cache := none }) :=
  nextQuestions_generator_failure _ _ _ (by intro c hc; cases hc) (by decide)

/-!
## The review route (`POST /api/spaced-repetition/review`)

For a non-demo user the handler looks the card up, feeds `quality` from the
request body straight into `calculateSpacedRepetition` — there is no
validation of `quality` anywhere in the route — and persists the returned
state.  The `|| default` reads of the card fields are JavaScript falsy
coalescing.
-/

/-- The card fields the route reads (`none` = field absent on the record). -/
structure FlashcardRec where
  repetitions : Option ℚ
  easeFactor : Option ℚ
  interval : Option ℚ
deriving Repr, DecidableEq

/-- `v || d` on a numeric field: absent or zero falls back to `d`. -/
def jsOr (v : Option ℚ) (d : ℚ) : ℚ :=
  match v with
  | none => d
  | some x => if x = 0 then d else x

/-- Exits of the review route: 404 when the card is not found, otherwise the
card is updated with the scheduler output (and the response carries
`nextReview` and `interval`). -/
inductive ReviewResponse
  | cardNotFound
  | updated (repetitions : ℚ) (interval : ℚ) (easeFactor : ℚ) (nextReview : ℚ)
deriving Repr, DecidableEq

/-- The `POST /api/spaced-repetition/review` handler for a non-demo user:
whatever `quality` the request body carries is applied. -/
def reviewHandler (card : Option FlashcardRec) (quality : ℚ) (now : ℚ) :
    ReviewResponse :=
  match card with
  | none => ReviewResponse.cardNotFound
  | some c =>
    let r := Part001.calculateSpacedRepetition quality (jsOr c.repetitions 0)
      (jsOr c.easeFactor 2.5) (jsOr c.interval 1) now
    ReviewResponse.updated r.repetitions r.interval r.easeFactor r.nextReview

/-- C6 fails on the code: `quality = 7` is outside `[0,5]`, yet the review
route does not reject it — it applies and persists the update (the ease
factor even grows by `0.18`), contradicting «rejected synchronously before
any state mutation». -/
theorem review_out_of_range_applied :
    reviewHandler (some (FlashcardRec.mk (some 0) (some 2.5) (some 1))) 7 0
      = ReviewResponse.updated 1 1 2.68 86400000 := by
  simp only [reviewHandler, jsOr, Part001.calculateSpacedRepetition]
  norm_num [max_def]

/-- C6 amended: neither operation validates its input.  The review route
applies `calculateSpacedRepetition` to any `quality` whatsoever (out-of-range
values mutate the card instead of being rejected), and `nextQuestions`
coerces an absent, non-numeric or zero `limit` to the default 5 and accepts
every other integer, negative ones included. -/
theorem review_and_limit_unvalidated :
    (∀ (c : FlashcardRec) (q now : ℚ),
      reviewHandler (some c) q now
        = ReviewResponse.updated
            (Part001.calculateSpacedRepetition q (jsOr c.repetitions 0)
              (jsOr c.easeFactor 2.5) (jsOr c.interval 1) now).repetitions
            (Part001.calculateSpacedRepetition q (jsOr c.repetitions 0)
              (jsOr c.easeFactor 2.5) (jsOr c.interval 1) now).interval
            (Part001.calculateSpacedRepetition q (jsOr c.repetitions 0)
              (jsOr c.easeFactor 2.5) (jsOr c.interval 1) now).easeFactor
            (Part001.calculateSpacedRepetition q (jsOr c.repetitions 0)
              (jsOr c.easeFactor 2.5) (jsOr c.interval 1) now).nextReview) ∧
    jsLimit none = 5 ∧ jsLimit (some 0) = 5 ∧
    (∀ n : ℤ, n ≠ 0 → jsLimit (some n) = n) := by
  refine ⟨fun c q now => rfl, rfl, rfl, ?_⟩
  intro n hn
  simp [jsLimit, hn]

/-- Witness for the amended C6: quality 9 on a concrete card is applied, and
the negative limit `-3` survives the coercion. -/
theorem review_and_limit_unvalidated_witness :
    reviewHandler (some (FlashcardRec.mk (some 2) (some 2) (some 3))) 9 1
      = ReviewResponse.updated
          (Part001.calculateSpacedRepetition 9 (jsOr (some 2) 0)
            (jsOr (some 2) 2.5) (jsOr (some 3) 1) 1).repetitions
          (Part001.calculateSpacedRepetition 9 (jsOr (some 2) 0)
            (jsOr (some 2) 2.5) (jsOr (some 3) 1) 1).interval
          (Part001.calculateSpacedRepetition 9 (jsOr (some 2) 0)
            (jsOr (some 2) 2.5) (jsOr (some 3) 1) 1).easeFactor
          (Part001.calculateSpacedRepetition 9 (jsOr (some 2) 0)
            (jsOr (some 2) 2.5) (jsOr (some 3) 1) 1).nextReview ∧
    jsLimit (some (-3)) = -3 :=
  ⟨review_and_limit_unvalidated.1 _ 9 1,
    review_and_limit_unvalidated.2.2.2 (-3) (by decide)⟩
